import Mathlib

set_option maxRecDepth 8000

namespace Pod

/-- Attendance status, from the Prisma enum `AttendanceStatus` in the
migration file: only `present` and `absent` exist. -/
inductive AttStatus
  | present
  | absent
deriving DecidableEq

/-- An attendance record row, as the analytics helpers see it
(`attendance_records` joined with its `students` row): calendar dates are
modelled as integer day numbers since 1970-01-01 (a Thursday), matching the
`DATE` column read at UTC midnight. -/
structure AttendanceRecord where
  studentId : String
  submittedBy : String
  status : AttStatus
  date : Int
  firstName : String
  lastName : String
  studentNumber : String
deriving DecidableEq

/-- Lower-casing of one character as JS `String.prototype.toLowerCase` acts
on ASCII: code points 65..90 shift by 32, everything else is unchanged. -/
def jsToLowerChar (c : Char) : Char :=
  if 65 ≤ c.toNat ∧ c.toNat ≤ 90 then Char.ofNat (c.toNat + 32) else c

/-- JS `toLowerCase` on a whole string (ASCII fragment, which covers every
keyword the routers test). -/
def jsToLower (s : String) : String :=
  String.mk (s.toList.map jsToLowerChar)

/-- Prefix test on character lists: `isPrefixList n l` holds when `n` is an
initial segment of `l`. -/
def isPrefixList : List Char → List Char → Bool
  | [], _ => true
  | _ :: _, [] => false
  | a :: s, b :: t => a == b && isPrefixList s t

/-- Contiguous-substring test: `containsSub hay needle` is JS
`hay.includes(needle)` on character lists. -/
def containsSub : List Char → List Char → Bool
  | [], needle => needle.isEmpty
  | c :: t, needle => isPrefixList needle (c :: t) || containsSub t needle

/-- JS `String.prototype.includes`. -/
def strIncludes (s sub : String) : Bool :=
  containsSub s.toList sub.toList

def kwAttendanceRate : String := "attendance rate"
def kwRate : String := "rate"
def kwPercentage : String := "percentage"
def kwAbsent : String := "absent"
def kwMissing : String := "missing"
def kwTrend : String := "trend"
def kwPattern : String := "pattern"
def kwStudent : String := "student"
def kwPerformance : String := "performance"

/-- Query intents dispatched by the mock AI query endpoints. -/
inductive Intent
  | rate
  | absence
  | trend
  | studentPerformance
  | defaultIntent
deriving DecidableEq

/-- Backend query router, from the chain of `if` statements in
`router.post` in src/backend/src/routes/ai.ts: note its first rule tests the
two-word keyword `attendance rate`, not the bare word `rate`. -/
def backendRoute (query : String) : Intent :=
  let lowerQuery := jsToLower query
  if strIncludes lowerQuery kwAttendanceRate || strIncludes lowerQuery kwPercentage then .rate
  else if strIncludes lowerQuery kwAbsent || strIncludes lowerQuery kwMissing then .absence
  else if strIncludes lowerQuery kwTrend || strIncludes lowerQuery kwPattern then .trend
  else if strIncludes lowerQuery kwStudent && strIncludes lowerQuery kwPerformance then .studentPerformance
  else .defaultIntent

/-- Frontend query router, from `getAttendanceInsights` in
src/src/components/AIAssistant.tsx: rules are rate, absence, trend, default
(there is no student-performance branch), and the first rule tests the bare
word `rate`. -/
def frontendRoute (query : String) : Intent :=
  let lowerQuery := jsToLower query
  if strIncludes lowerQuery kwRate || strIncludes lowerQuery kwPercentage then .rate
  else if strIncludes lowerQuery kwAbsent || strIncludes lowerQuery kwMissing then .absence
  else if strIncludes lowerQuery kwTrend || strIncludes lowerQuery kwPattern then .trend
  else .defaultIntent

/-- Percentage computation shared by every aggregation site:
`total > 0 ? (present / total) * 100 : 0` with the explicit division-by-zero
guard. -/
def ratePct (p t : Nat) : ℚ :=
  if 0 < t then (p : ℚ) / (t : ℚ) * 100 else 0

/-- Role scoping shared by the four analytics helpers in
src/backend/src/routes/ai.ts: a beadle's `whereClause` restricts to rows it
submitted; every other role reads the whole table. -/
def scopedRecords (userId role : String) (records : List AttendanceRecord) : List AttendanceRecord :=
  if role = "beadle" then records.filter (fun r => r.submittedBy == userId) else records

/-- Result shape of backend `getAttendanceStats`. -/
structure AttendanceStats where
  totalRecords : Nat
  presentRecords : Nat
  absentRecords : Int
  attendanceRate : ℚ
deriving DecidableEq

/-- Backend `getAttendanceStats`: overall counts over the role-scoped rows,
`absentRecords = totalRecords - presentRecords`, rate guarded against a zero
total. -/
def getAttendanceStats (userId role : String) (records : List AttendanceRecord) : AttendanceStats :=
  let rows := scopedRecords userId role records
  let totalRecords := rows.length
  let presentRecords := (rows.filter (fun r => r.status == AttStatus.present)).length
  { totalRecords := totalRecords
    presentRecords := presentRecords
    absentRecords := (totalRecords : Int) - (presentRecords : Int)
    attendanceRate := ratePct presentRecords totalRecords }

/-- One step of the JS accumulator objects: if key `k` is absent, the entry
is created from `v0` and then updated, mirroring the insert-then-increment
shape of every `reduce` in the sources; insertion order is preserved, which
is what `Object.values`/`Object.entries` later iterate in. -/
def updateAssoc {K V : Type} [DecidableEq K] (k : K) (v0 : V) (f : V → V) :
    List (K × V) → List (K × V)
  | [] => [(k, f v0)]
  | (k2, v) :: t => if k2 = k then (k2, f v) :: t else (k2, v) :: updateAssoc k v0 f t

/-- The `records.reduce((acc, r) => ..., {})` pattern: fold the rows
left-to-right into an insertion-ordered association list. -/
def tallyBy {α K V : Type} [DecidableEq K] (key : α → K) (v0 : α → V) (bump : V → α → V) :
    List α → List (K × V) → List (K × V)
  | [], acc => acc
  | r :: rs, acc => tallyBy key v0 bump rs (updateAssoc (key r) (v0 r) (fun v => bump v r) acc)

/-- Per-group counter of part_002 (section analytics page): present, absent
and total are all tracked. -/
structure DayCounts where
  present : Nat
  absent : Nat
  total : Nat
deriving DecidableEq

/-- The loop body of part_002's daily-stats accumulation: `total++`, then
`present++` when the row is present, else `absent++`. -/
def bumpDay (c : DayCounts) (s : AttStatus) : DayCounts :=
  { total := c.total + 1
    present := if s == AttStatus.present then c.present + 1 else c.present
    absent := if s == AttStatus.present then c.absent else c.absent + 1 }

/-- Per-group counter used by the backend weekly stats and the frontend
daily stats: only present and total are tracked. -/
structure PresentTotal where
  present : Nat
  total : Nat
deriving DecidableEq

/-- Loop body of those accumulations: `total++`, then `present++` when the
row is present. -/
def bumpPT (c : PresentTotal) (s : AttStatus) : PresentTotal :=
  { total := c.total + 1
    present := if s == AttStatus.present then c.present + 1 else c.present }

/-- Descending comparison by a projected key; `List.insertionSort (byDesc key)`
is the unique stable sort the ES2019 `Array.prototype.sort` contract assigns
to the comparator `(a, b) => key(b) - key(a)`. -/
def byDesc {α β : Type} [LinearOrder β] (key : α → β) (a b : α) : Prop :=
  key b ≤ key a

/-- Ascending comparison by a projected key, for the comparators of shape
`(a, b) => key(a) - key(b)`. -/
def byAsc {α β : Type} [LinearOrder β] (key : α → β) (a b : α) : Prop :=
  key a ≤ key b

instance {α β : Type} [LinearOrder β] (key : α → β) : DecidableRel (byDesc key) :=
  fun a b => inferInstanceAs (Decidable (key b ≤ key a))

instance {α β : Type} [LinearOrder β] (key : α → β) : DecidableRel (byAsc key) :=
  fun a b => inferInstanceAs (Decidable (key a ≤ key b))

instance {α β : Type} [LinearOrder β] (key : α → β) : IsTotal α (byDesc key) :=
  ⟨fun a b => le_total (key b) (key a)⟩

instance {α β : Type} [LinearOrder β] (key : α → β) : IsTrans α (byDesc key) :=
  ⟨fun _ _ _ h1 h2 => le_trans h2 h1⟩

instance {α β : Type} [LinearOrder β] (key : α → β) : IsTotal α (byAsc key) :=
  ⟨fun a b => le_total (key a) (key b)⟩

instance {α β : Type} [LinearOrder β] (key : α → β) : IsTrans α (byAsc key) :=
  ⟨fun _ _ _ h1 h2 => le_trans h1 h2⟩

/-- Accumulator entry of backend `getAbsenceAnalysis`. -/
structure Absentee where
  studentName : String
  studentNumber : String
  absenceCount : Nat
deriving DecidableEq

/-- Result shape of backend `getAbsenceAnalysis`. -/
structure AbsenceAnalysis where
  totalAbsences : Nat
  topAbsentees : List Absentee
deriving DecidableEq

/-- The `studentAbsenceCount` reduce of `getAbsenceAnalysis`, keyed by
student id, entry initialised with the display name and a zero count. -/
def absenteeTally (absentRecords : List AttendanceRecord) : List (String × Absentee) :=
  tallyBy (fun r => r.studentId)
    (fun r => { studentName := r.firstName ++ " " ++ r.lastName
                studentNumber := r.studentNumber
                absenceCount := 0 })
    (fun a _ => { a with absenceCount := a.absenceCount + 1 })
    absentRecords []

/-- `Object.values(studentAbsenceCount).sort((a, b) => b.absenceCount - a.absenceCount)`:
a stable descending sort of the insertion-ordered values. -/
def rankedAbsentees (absentRecords : List AttendanceRecord) : List Absentee :=
  List.insertionSort (byDesc Absentee.absenceCount) ((absenteeTally absentRecords).map Prod.snd)

/-- Backend `getAbsenceAnalysis`: role-scoped absent rows, per-student
counts, top five by count. -/
def getAbsenceAnalysis (userId role : String) (records : List AttendanceRecord) : AbsenceAnalysis :=
  let absentRecords := (scopedRecords userId role records).filter (fun r => r.status == AttStatus.absent)
  { totalAbsences := absentRecords.length
    topAbsentees := (rankedAbsentees absentRecords).take 5 }

/-- Accumulator entry of backend `getStudentPerformance`. -/
structure PerfAcc where
  studentName : String
  studentNumber : String
  present : Nat
  total : Nat
deriving DecidableEq

/-- A `studentPerformance` element after the rate is spread in. -/
structure PerfEntry where
  studentName : String
  studentNumber : String
  present : Nat
  total : Nat
  attendanceRate : ℚ
deriving DecidableEq

/-- Result shape of backend `getStudentPerformance`. -/
structure StudentPerformance where
  topPerformers : List PerfEntry
  needsAttention : List PerfEntry
deriving DecidableEq

/-- The `studentStats` reduce of `getStudentPerformance`. -/
def perfTally (records : List AttendanceRecord) : List (String × PerfAcc) :=
  tallyBy (fun r => r.studentId)
    (fun r => { studentName := r.firstName ++ " " ++ r.lastName
                studentNumber := r.studentNumber
                present := 0
                total := 0 })
    (fun a r => { a with total := a.total + 1
                         present := if r.status == AttStatus.present then a.present + 1 else a.present })
    records []

/-- `Object.values(studentStats).map(addRate).sort((a, b) => b.attendanceRate - a.attendanceRate)`. -/
def rankedPerformance (records : List AttendanceRecord) : List PerfEntry :=
  List.insertionSort (byDesc PerfEntry.attendanceRate)
    ((perfTally records).map (fun e =>
      { studentName := e.2.studentName
        studentNumber := e.2.studentNumber
        present := e.2.present
        total := e.2.total
        attendanceRate := ratePct e.2.present e.2.total }))

/-- Backend `getStudentPerformance`: `slice(0, 5)` of the descending list,
and `slice(-5).reverse()` for the needs-attention view. -/
def getStudentPerformance (userId role : String) (records : List AttendanceRecord) : StudentPerformance :=
  let perf := rankedPerformance (scopedRecords userId role records)
  { topPerformers := perf.take 5
    needsAttention := (perf.drop (perf.length - 5)).reverse }

/-- JS `date.getDay()` on a day number: 0 is Sunday (day 0, 1970-01-01, was
a Thursday, weekday 4). -/
def jsGetDay (d : Int) : Int :=
  (d + 4) % 7

/-- The week key of backend `getTrendAnalysis`:
`weekStart.setDate(date.getDate() - date.getDay())`, i.e. the Sunday on or
before the record's date. -/
def weekStartOf (d : Int) : Int :=
  d - jsGetDay d

/-- Modelled from the spec: the Monday that begins the ISO-8601 week
containing day `d` (ISO weeks run Monday through Sunday); stated only to be
compared with the source's `weekStartOf`. -/
def isoWeekMonday (d : Int) : Int :=
  d - ((d + 3) % 7)

/-- The `weeklyStats` reduce of backend `getTrendAnalysis`, keyed by the
week-start day of each role-scoped record. -/
def weeklyStats (userId role : String) (records : List AttendanceRecord) : List (Int × PresentTotal) :=
  tallyBy (fun r => weekStartOf r.date) (fun _ => { present := 0, total := 0 })
    (fun c r => bumpPT c r.status)
    (scopedRecords userId role records) []

/-- `weeklyAverages`: each week's rate, with the zero-total guard. -/
def weeklyAverages (userId role : String) (records : List AttendanceRecord) : List (Int × ℚ) :=
  (weeklyStats userId role records).map (fun e => (e.1, ratePct e.2.present e.2.total))

/-- `weeklyAverages.slice(-1)[0]?.attendanceRate || 0`: the last week's
rate, defaulting to 0 when there is none (and `|| 0` maps a 0 rate to 0). -/
def recentWeekRate (l : List (Int × ℚ)) : ℚ :=
  ((l.getLast?).map Prod.snd).getD 0

/-- `weeklyAverages.slice(-2, -1)[0]?.attendanceRate || 0`: the
second-to-last week's rate, defaulting to 0 when fewer than two weeks
exist. -/
def previousWeekRate (l : List (Int × ℚ)) : ℚ :=
  ((((l.drop (l.length - 2)).take ((l.length - 1) - (l.length - 2))).head?).map Prod.snd).getD 0

/-- Trend direction values of both trend analyzers. -/
inductive Trend
  | improving
  | declining
  | stable
deriving DecidableEq

/-- The backend ternary
`recentWeek > previousWeek ? 'improving' : recentWeek < previousWeek ? 'declining' : 'stable'`. -/
def trendDirectionOf (l : List (Int × ℚ)) : Trend :=
  let recent := recentWeekRate l
  let previous := previousWeekRate l
  if previous < recent then .improving
  else if recent < previous then .declining
  else .stable

/-- Result shape of backend `getTrendAnalysis`. -/
structure TrendData where
  weeklyAverages : List (Int × ℚ)
  trendDirection : Trend
  recentWeek : ℚ
  previousWeek : ℚ
deriving DecidableEq

/-- Backend `getTrendAnalysis` after the 30-day window has been fetched:
weekly grouping, weekly rates, and the two-point trend comparison. -/
def getTrendAnalysis (userId role : String) (records : List AttendanceRecord) : TrendData :=
  let wa := weeklyAverages userId role records
  { weeklyAverages := wa
    trendDirection := trendDirectionOf wa
    recentWeek := recentWeekRate wa
    previousWeek := previousWeekRate wa }

/-- The integer JS `x.toFixed(1)` rounds to, times ten: the ECMA-262 spec
picks the n minimising the distance of n/10 to x and the larger n on ties,
which is the floor of 10x + 1/2. -/
def roundTenth (q : ℚ) : Int :=
  ⌊q * 10 + 1 / 2⌋

/-- Rendering of JS `x.toFixed(1)`: one digit after the decimal point. -/
def showFixed1 (q : ℚ) : String :=
  let n := roundTenth q
  let s := toString (n.natAbs / 10) ++ "." ++ toString (n.natAbs % 10)
  if n < 0 then "-" ++ s else s

/-- The qualitative-label ternary shared by backend
`generateAttendanceRateResponse` and the frontend default branch:
thresholds at 90 and 80. -/
def rateQualityLabel (rate : ℚ) : String :=
  if 90 ≤ rate then "✅ Excellent attendance rate!"
  else if 80 ≤ rate then "👍 Good attendance rate"
  else "⚠️ Attendance needs attention"

/-- Backend `generateAttendanceRateResponse`: a fixed template interpolating
the stats, with the rate through `toFixed(1)`. -/
def generateAttendanceRateResponse (stats : AttendanceStats) : String :=
  "📊 **Attendance Overview**:\n\n• **Overall Rate**: " ++ showFixed1 stats.attendanceRate ++
    "%\n• **Total Records**: " ++ toString stats.totalRecords ++
    "\n• **Present**: " ++ toString stats.presentRecords ++
    "\n• **Absent**: " ++ toString stats.absentRecords ++ "\n\n" ++
    rateQualityLabel stats.attendanceRate

/-- The string JS interpolation produces for a `Trend` value. -/
def trendName : Trend → String
  | .improving => "improving"
  | .declining => "declining"
  | .stable => "stable"

/-- The emoji ternary of backend `generateTrendResponse`. -/
def trendEmoji (t : Trend) : String :=
  if t = .improving then "📈" else if t = .declining then "📉" else "📊"

/-- The closing-sentence ternary shared by the backend and frontend trend
formatters. -/
def trendClosing (t : Trend) : String :=
  if t = .improving then "🎉 Great! Attendance is trending upward."
  else if t = .declining then "⚠️ Attendance is declining - consider intervention strategies."
  else "📊 Attendance is stable."

/-- Backend `generateTrendResponse`. -/
def generateTrendResponse (data : TrendData) : String :=
  "📈 **Attendance Trend Analysis**:\n\n• **Recent Week**: " ++ showFixed1 data.recentWeek ++
    "%\n• **Previous Week**: " ++ showFixed1 data.previousWeek ++
    "%\n• **Trend**: " ++ trendEmoji data.trendDirection ++ " " ++ trendName data.trendDirection ++
    "\n\n" ++ trendClosing data.trendDirection

/-- The no-data reply of the frontend `getAttendanceInsights`
(src/src/components/AIAssistant.tsx), returned before any intent branch
runs. -/
def noDataMessage : String :=
  "I don\x27t have any recent attendance data to analyze. Please make sure attendance records have been entered."

/-- A `dailyRates` element of the frontend trend branch. -/
structure DailyRate where
  date : Int
  rate : ℚ
deriving DecidableEq

def newlineStr : String := "\n"

/-- Frontend `getAttendanceInsights` from src/src/components/AIAssistant.tsx,
as a function of the already-fetched record window. JS
`toLocaleDateString`, being defined by the runtime's ambient locale, is the
explicit parameter `fmtDate`. -/
def getAttendanceInsights (fmtDate : Int → String) (query : String)
    (attendanceData : List AttendanceRecord) : String :=
  if attendanceData.isEmpty then noDataMessage else
  let totalRecords := attendanceData.length
  let presentCount := (attendanceData.filter (fun r => r.status == AttStatus.present)).length
  let absentCount := totalRecords - presentCount
  let attendanceRate := ratePct presentCount totalRecords
  let uniqueStudents := (attendanceData.map (fun r => r.studentNumber)).dedup.length
  let recentDays := attendanceData.take 7
  let recentPresent := (recentDays.filter (fun r => r.status == AttStatus.present)).length
  let recentRate := ratePct recentPresent recentDays.length
  let lowerQuery := jsToLower query
  if strIncludes lowerQuery kwRate || strIncludes lowerQuery kwPercentage then
    "Based on the last 30 days of data:\n\n📊 **Overall Attendance Rate**: " ++
      showFixed1 attendanceRate ++ "%\n📈 **Recent Trend (7 days)**: " ++ showFixed1 recentRate ++
      "%\n👥 **Total Students**: " ++ toString uniqueStudents ++
      "\n📅 **Records Analyzed**: " ++ toString totalRecords ++ "\n\n" ++
      (if attendanceRate < recentRate then "✅ Attendance is improving recently!"
       else if recentRate < attendanceRate then "⚠️ Attendance has declined recently."
       else "📊 Attendance is stable.")
  else if strIncludes lowerQuery kwAbsent || strIncludes lowerQuery kwMissing then
    let absentStudents := attendanceData.filter (fun r => r.status == AttStatus.absent)
    let frequentAbsentees := tallyBy (fun r => r.firstName ++ " " ++ r.lastName)
      (fun _ => (0 : Nat)) (fun n _ => n + 1) absentStudents []
    let topAbsentees := (List.insertionSort (byDesc (fun e : String × Nat => e.2)) frequentAbsentees).take 3
    "📉 **Absence Analysis**:\n\n• Total Absences: " ++ toString absentCount ++
      "\n• Absence Rate: " ++ showFixed1 ((absentCount : ℚ) / (totalRecords : ℚ) * 100) ++
      "%\n\n🔍 **Students with Most Absences**:\n" ++
      String.intercalate newlineStr
        (topAbsentees.map (fun e => "• " ++ e.1 ++ ": " ++ toString e.2 ++ " days")) ++
      "\n\n💡 **Recommendation**: Consider reaching out to students with frequent absences to understand any challenges they might be facing."
  else if strIncludes lowerQuery kwTrend || strIncludes lowerQuery kwPattern then
    let dailyStats := tallyBy (fun r => r.date) (fun _ => ({ present := 0, total := 0 } : PresentTotal))
      (fun c r => bumpPT c r.status) attendanceData []
    let sortedRates := List.insertionSort (byAsc DailyRate.date)
      (dailyStats.map (fun e =>
        ({ date := e.1, rate := (e.2.present : ℚ) / (e.2.total : ℚ) * 100 } : DailyRate)))
    let dailyRates := sortedRates.drop (sortedRates.length - 7)
    let trendDir : Trend :=
      if 1 < dailyRates.length then
        if ((dailyRates.head?.map DailyRate.rate).getD 0) < ((dailyRates.getLast?.map DailyRate.rate).getD 0)
        then .improving else .declining
      else .stable
    "📈 **Attendance Trend Analysis**:\n\n• **Overall Rate**: " ++ showFixed1 attendanceRate ++
      "%\n• **Recent Trend**: " ++ trendName trendDir ++ "\n• **Last 7 Days**:\n" ++
      String.intercalate newlineStr
        (dailyRates.map (fun d => "  " ++ fmtDate d.date ++ ": " ++ showFixed1 d.rate ++ "%")) ++
      "\n\n" ++ trendClosing trendDir
  else
    "📊 **Attendance Overview**:\n\n• **Overall Rate**: " ++ showFixed1 attendanceRate ++
      "%\n• **Total Students**: " ++ toString uniqueStudents ++
      "\n• **Records**: " ++ toString totalRecords ++
      " entries\n• **Recent Performance**: " ++ showFixed1 recentRate ++
      "% (last 7 days)\n\n💡 **Quick Insights**:\n" ++ rateQualityLabel attendanceRate ++
      "\n\nAsk me about specific patterns, trends, or student performance!"

/-- A `dailyStats` entry of part_002 (the section analytics page), after the
rate is computed. -/
structure DayStat where
  date : Int
  present : Nat
  absent : Nat
  total : Nat
  attendanceRate : ℚ
deriving DecidableEq

/-- The `statsMap` accumulation of part_002's `fetchAttendanceData`. -/
def dailyTally (records : List AttendanceRecord) : List (Int × DayCounts) :=
  tallyBy (fun r => r.date) (fun _ => ({ present := 0, absent := 0, total := 0 } : DayCounts))
    (fun c r => bumpDay c r.status) records []

/-- part_002's `processedStats`: the daily map rendered to rows with the
zero-guarded rate and sorted by date ascending. -/
def processedStats (records : List AttendanceRecord) : List DayStat :=
  List.insertionSort (byAsc DayStat.date)
    ((dailyTally records).map (fun e =>
      { date := e.1
        present := e.2.present
        absent := e.2.absent
        total := e.2.total
        attendanceRate := ratePct e.2.present e.2.total }))

/-- A `sectionBreakdown` element of the Metabase today-summary consumed by
`podAIService.generateAttendanceInsights`. -/
structure SectionStat where
  sectionName : String
  totalStudents : Nat
  attendanceRate : ℚ
deriving DecidableEq

/-- The Metabase today-summary shape. -/
structure AttendanceSummary where
  totalStudents : Nat
  attendanceRate : ℚ
  sectionBreakdown : List SectionStat
deriving DecidableEq

/-- The `AttendanceInsight` record of src/src/services/podAIService.ts; the
pattern payloads coming back from the vector store are opaque, hence the
type parameter. -/
structure AttendanceInsight (P : Type) where
  summary : String
  recommendations : List String
  patterns : List P
  alerts : List String

def overallLowAlert : String := "⚠️ Overall attendance rate is below 80%"

/-- `podAIService.generateAlerts`: one alert when the overall rate is under
80, plus one per section under 70. -/
def generateAlerts (attendanceData : AttendanceSummary) : List String :=
  (if attendanceData.attendanceRate < 80 then [overallLowAlert] else []) ++
    attendanceData.sectionBreakdown.filterMap (fun s =>
      if s.attendanceRate < 70 then
        let msg := "🚨 Section " ++ s.sectionName ++ " has critically low attendance (" ++
          toString s.attendanceRate ++ "%)"
        some msg
      else none)

/-- The fixed insight returned by the `catch` arm of
`podAIService.generateAttendanceInsights`. -/
def fallbackInsight (P : Type) : AttendanceInsight P :=
  { summary := "Unable to generate insights at this time. Please try again later."
    recommendations := []
    patterns := []
    alerts := [] }

/-- `podAIService.generateAttendanceInsights`: four awaited service calls in
sequence inside a try; any rejection falls to the fixed fallback insight.
Each fallible collaborator is an `Except` value or `Except`-returning
function. -/
def generateAttendanceInsights {E P : Type}
    (getTodayAttendanceSummary : Except E AttendanceSummary)
    (generateAttendanceInsight : AttendanceSummary → Except E String)
    (findSimilarAttendancePatterns : Except E (List P))
    (generateRecommendations : AttendanceSummary → Except E String) :
    AttendanceInsight P :=
  match getTodayAttendanceSummary with
  | .error _ => fallbackInsight P
  | .ok attendanceData =>
    match generateAttendanceInsight attendanceData with
    | .error _ => fallbackInsight P
    | .ok aiResponse =>
      match findSimilarAttendancePatterns with
      | .error _ => fallbackInsight P
      | .ok similarPatterns =>
        match generateRecommendations attendanceData with
        | .error _ => fallbackInsight P
        | .ok recommendations =>
          { summary := aiResponse
            recommendations := [recommendations]
            patterns := similarPatterns
            alerts := generateAlerts attendanceData }

/-- Strict lexicographic-or-equal order on character lists, used to state
display-name ordering concretely. -/
def lexLe : List Char → List Char → Bool
  | [], _ => true
  | _ :: _, [] => false
  | a :: s, b :: t => if a = b then lexLe s t else decide (a.toNat < b.toNat)

def uX : String := "user-x"
def uY : String := "user-y"
def roleBeadle : String := "beadle"
def roleAdmin : String := "admin"
def roleCoordinator : String := "coordinator"
def qRateTrend : String := "rate trend"
def qSpec : String := "What is the attendance rate trend?"
def phraseNoData : String := "attendance data"
def zedName : String := "Zed Zz"
def abeName : String := "Abe Aa"
def okStr : String := "ok"

/-- Fixture: a present record on day 5 (Tuesday 1970-01-06). -/
def recTue : AttendanceRecord :=
  { studentId := "s1"
    submittedBy := "user-x"
    status := .present
    date := 5
    firstName := "Ann"
    lastName := "Lee"
    studentNumber := "1001" }

/-- Fixture: an absence for Zed, appearing first in the window. -/
def recZed : AttendanceRecord :=
  { studentId := "s2"
    submittedBy := "user-x"
    status := .absent
    date := 0
    firstName := "Zed"
    lastName := "Zz"
    studentNumber := "2001" }

/-- Fixture: an absence for Abe, appearing second in the window. -/
def recAbe : AttendanceRecord :=
  { studentId := "s3"
    submittedBy := "user-x"
    status := .absent
    date := 0
    firstName := "Abe"
    lastName := "Aa"
    studentNumber := "2002" }

/-- Fixture: the daily row produced for `recTue`. -/
def dayTueStat : DayStat :=
  { date := 5, present := 1, absent := 0, total := 1, attendanceRate := 100 }

/-- Fixture: the weekly entry produced for `recTue` (week key 3, the Sunday
1970-01-04). -/
def weekEntryW : Int × PresentTotal :=
  (3, { present := 1, total := 1 })

/-- Fixture: a stats payload with a 60 percent rate. -/
def statsW : AttendanceStats :=
  { totalRecords := 10, presentRecords := 6, absentRecords := 4, attendanceRate := 60 }

/-- Fixture: a trend payload carrying weekly averages. -/
def tdW : TrendData :=
  { weeklyAverages := [(0, 50)], trendDirection := .stable, recentWeek := 0, previousWeek := 0 }

/-- Fixture: the same rendered fields as `tdW` but different (empty) weekly
averages. -/
def tdW2 : TrendData :=
  { weeklyAverages := [], trendDirection := .stable, recentWeek := 0, previousWeek := 0 }

/-- A date renderer in the en-US style. -/
def fmtUS : Int → String := fun _ => "1/6/1970"

/-- A date renderer in the en-GB style. -/
def fmtGB : Int → String := fun _ => "06/01/1970"

/-- Fixture: a Metabase summary value. -/
def sumW : AttendanceSummary :=
  { totalStudents := 10, attendanceRate := 75, sectionBreakdown := [] }

def gSumErr : Except Unit AttendanceSummary := Except.error ()
def gInsightOk : AttendanceSummary → Except Unit String := fun _ => Except.ok okStr
def gPatternsOk : Except Unit (List Unit) := Except.ok []
def gRecsOk : AttendanceSummary → Except Unit String := fun _ => Except.ok okStr

/-- The locale-independent prefix of the frontend trend reply on the
single-record window `[recTue]`. -/
def trendPreW : String :=
  "📈 **Attendance Trend Analysis**:\n\n• **Overall Rate**: " ++ showFixed1 (ratePct 1 1) ++
    "%\n• **Recent Trend**: " ++ trendName Trend.stable ++ "\n• **Last 7 Days**:\n"

/-- The locale-independent suffix of that same reply. -/
def trendPostW : String := "\n\n" ++ trendClosing Trend.stable

theorem ratePct_nonneg (p t : Nat) : 0 ≤ ratePct p t := by
  unfold ratePct
  split
  · positivity
  · exact le_refl 0

theorem ratePct_le_hundred (p t : Nat) (h : p ≤ t) : ratePct p t ≤ 100 := by
  unfold ratePct
  split
  · rename_i ht
    have ht2 : (0 : ℚ) < (t : ℚ) := by exact_mod_cast ht
    have hp : (p : ℚ) ≤ (t : ℚ) := by exact_mod_cast h
    rw [div_mul_eq_mul_div, div_le_iff₀ ht2]
    nlinarith
  · norm_num

theorem ratePct_eq_div (p t : Nat) (h : p ≤ t) : ratePct p t = (p : ℚ) / (t : ℚ) * 100 := by
  unfold ratePct
  split
  · rfl
  · rename_i ht
    have ht0 : t = 0 := by omega
    have hp0 : p = 0 := by omega
    subst ht0
    subst hp0
    norm_num

theorem ratePct_zero (p : Nat) : ratePct p 0 = 0 := by
  simp [ratePct]

theorem mem_updateAssoc_val {K V : Type} [DecidableEq K] (P : V → Prop) (k : K) (v0 : V)
    (f : V → V) (hf0 : P (f v0)) (hf : ∀ v, P v → P (f v)) :
    ∀ l : List (K × V), (∀ e ∈ l, P e.2) → ∀ e ∈ updateAssoc k v0 f l, P e.2 := by
  intro l
  induction l with
  | nil =>
    intro _ e he
    simp only [updateAssoc, List.mem_singleton] at he
    subst he
    exact hf0
  | cons hd t ih =>
    intro h e he
    obtain ⟨k2, v⟩ := hd
    simp only [updateAssoc] at he
    split at he
    · rcases List.mem_cons.mp he with h1 | h1
      · subst h1
        exact hf v (h (k2, v) (List.mem_cons_self _ _))
      · exact h e (List.mem_cons_of_mem _ h1)
    · rcases List.mem_cons.mp he with h1 | h1
      · subst h1
        exact h (k2, v) (List.mem_cons_self _ _)
      · exact ih (fun e2 he2 => h e2 (List.mem_cons_of_mem _ he2)) e h1

theorem mem_updateAssoc_key {K V : Type} [DecidableEq K] (k : K) (v0 : V) (f : V → V) :
    ∀ l : List (K × V), ∀ e ∈ updateAssoc k v0 f l, e.1 = k ∨ ∃ e2 ∈ l, e.1 = e2.1 := by
  intro l
  induction l with
  | nil =>
    intro e he
    simp only [updateAssoc, List.mem_singleton] at he
    subst he
    exact Or.inl rfl
  | cons hd t ih =>
    intro e he
    obtain ⟨k2, v⟩ := hd
    simp only [updateAssoc] at he
    split at he
    · rcases List.mem_cons.mp he with h1 | h1
      · subst h1
        exact Or.inr ⟨(k2, v), List.mem_cons_self _ _, rfl⟩
      · exact Or.inr ⟨e, List.mem_cons_of_mem _ h1, rfl⟩
    · rcases List.mem_cons.mp he with h1 | h1
      · subst h1
        exact Or.inr ⟨(k2, v), List.mem_cons_self _ _, rfl⟩
      · rcases ih e h1 with h2 | ⟨e2, he2, h3⟩
        · exact Or.inl h2
        · exact Or.inr ⟨e2, List.mem_cons_of_mem _ he2, h3⟩

theorem mem_tallyBy_val {α K V : Type} [DecidableEq K] (P : V → Prop) (key : α → K)
    (v0 : α → V) (bump : V → α → V) (h0 : ∀ r, P (bump (v0 r) r))
    (hb : ∀ v r, P v → P (bump v r)) :
    ∀ (rs : List α) (acc : List (K × V)), (∀ e ∈ acc, P e.2) →
      ∀ e ∈ tallyBy key v0 bump rs acc, P e.2 := by
  intro rs
  induction rs with
  | nil => intro acc h e he; exact h e he
  | cons r rs ih =>
    intro acc h e he
    exact ih _ (mem_updateAssoc_val P (key r) (v0 r) (fun v => bump v r) (h0 r)
      (fun v hv => hb v r hv) acc h) e he

theorem mem_tallyBy_key {α K V : Type} [DecidableEq K] (key : α → K) (v0 : α → V)
    (bump : V → α → V) :
    ∀ (rs : List α) (acc : List (K × V)), ∀ e ∈ tallyBy key v0 bump rs acc,
      (∃ r ∈ rs, e.1 = key r) ∨ ∃ e2 ∈ acc, e.1 = e2.1 := by
  intro rs
  induction rs with
  | nil => intro acc e he; exact Or.inr ⟨e, he, rfl⟩
  | cons r rs ih =>
    intro acc e he
    rcases ih _ e he with ⟨r2, hr2, h2⟩ | ⟨e2, he2, h2⟩
    · exact Or.inl ⟨r2, List.mem_cons_of_mem _ hr2, h2⟩
    · rcases mem_updateAssoc_key (key r) (v0 r) _ acc e2 he2 with h3 | ⟨e3, he3, h4⟩
      · exact Or.inl ⟨r, List.mem_cons_self _ _, h2.trans h3⟩
      · exact Or.inr ⟨e3, he3, h2.trans h4⟩

theorem bumpDay_preserves (c : DayCounts) (s : AttStatus)
    (h : c.present + c.absent = c.total) :
    (bumpDay c s).present + (bumpDay c s).absent = (bumpDay c s).total := by
  cases s <;> simp [bumpDay] <;> omega

/-- C1: for every record window the aggregators' outputs satisfy
presentCount + absentCount = totalCount, attendanceRate =
presentCount / totalCount * 100, the rate lies in [0, 100], and a zero
total yields rate 0 with no division error: both for the backend
`getAttendanceStats` and for every per-day row of part_002's
`processedStats`. -/
theorem aggregator_counts_and_rate (u role : String) (records : List AttendanceRecord) :
    (((getAttendanceStats u role records).presentRecords : Int)
        + (getAttendanceStats u role records).absentRecords
        = ((getAttendanceStats u role records).totalRecords : Int)) ∧
    (getAttendanceStats u role records).attendanceRate
        = ((getAttendanceStats u role records).presentRecords : ℚ)
          / ((getAttendanceStats u role records).totalRecords : ℚ) * 100 ∧
    0 ≤ (getAttendanceStats u role records).attendanceRate ∧
    (getAttendanceStats u role records).attendanceRate ≤ 100 ∧
    ((getAttendanceStats u role records).totalRecords = 0 →
      (getAttendanceStats u role records).attendanceRate = 0) ∧
    ∀ e ∈ processedStats records,
      e.present + e.absent = e.total ∧
      e.attendanceRate = (e.present : ℚ) / (e.total : ℚ) * 100 ∧
      0 ≤ e.attendanceRate ∧ e.attendanceRate ≤ 100 ∧
      (e.total = 0 → e.attendanceRate = 0) := by
  have hp : (getAttendanceStats u role records).presentRecords
      = ((scopedRecords u role records).filter (fun r => r.status == AttStatus.present)).length := rfl
  have ht : (getAttendanceStats u role records).totalRecords
      = (scopedRecords u role records).length := rfl
  have ha : (getAttendanceStats u role records).absentRecords
      = ((scopedRecords u role records).length : Int)
        - (((scopedRecords u role records).filter (fun r => r.status == AttStatus.present)).length : Int) := rfl
  have hr : (getAttendanceStats u role records).attendanceRate
      = ratePct (getAttendanceStats u role records).presentRecords
          (getAttendanceStats u role records).totalRecords := rfl
  have hple : (getAttendanceStats u role records).presentRecords
      ≤ (getAttendanceStats u role records).totalRecords := by
    rw [hp, ht]
    exact List.length_filter_le _ _
  refine ⟨?_, ?_, ?_, ?_, ?_, ?_⟩
  · rw [hp, ht, ha]
    omega
  · rw [hr]
    exact ratePct_eq_div _ _ hple
  · rw [hr]
    exact ratePct_nonneg _ _
  · rw [hr]
    exact ratePct_le_hundred _ _ hple
  · intro h0
    rw [hr, h0]
    exact ratePct_zero _
  · intro e he
    have he2 : e ∈ (dailyTally records).map (fun e =>
        ({ date := e.1
           present := e.2.present
           absent := e.2.absent
           total := e.2.total
           attendanceRate := ratePct e.2.present e.2.total } : DayStat)) := by
      refine (List.mem_insertionSort (byAsc DayStat.date)).mp ?_
      exact he
    rcases List.mem_map.mp he2 with ⟨a, ha2, hae⟩
    have hinv : a.2.present + a.2.absent = a.2.total := by
      refine mem_tallyBy_val (fun c => c.present + c.absent = c.total) _ _ _
        ?_ ?_ records [] (by simp) a ha2
      · intro r
        cases hs : r.status <;> simp [bumpDay, hs]
      · intro v r hv
        cases hs : r.status <;> simp [bumpDay, hs] <;> omega
    subst hae
    have hle : a.2.present ≤ a.2.total := by omega
    refine ⟨hinv, ratePct_eq_div _ _ hle, ratePct_nonneg _ _, ratePct_le_hundred _ _ hle, ?_⟩
    intro h0
    have h1 : a.2.total = 0 := h0
    show ratePct a.2.present a.2.total = 0
    rw [h1]
    exact ratePct_zero _

theorem processedStats_recTue : processedStats [recTue] = [dayTueStat] := by
  simp only [processedStats, dailyTally, tallyBy, updateAssoc, bumpDay, recTue,
    List.insertionSort, List.orderedInsert, List.map, dayTueStat]
  norm_num [ratePct]

theorem aggregator_counts_and_rate_witness :
    dayTueStat ∈ processedStats [recTue] ∧
    dayTueStat.present + dayTueStat.absent = dayTueStat.total ∧
    0 ≤ dayTueStat.attendanceRate :=
  ⟨by rw [processedStats_recTue]; exact List.mem_singleton.mpr rfl,
   ((aggregator_counts_and_rate uX roleAdmin [recTue]).2.2.2.2.2 dayTueStat
     (by rw [processedStats_recTue]; exact List.mem_singleton.mpr rfl)).1,
   ((aggregator_counts_and_rate uX roleAdmin [recTue]).2.2.2.2.2 dayTueStat
     (by rw [processedStats_recTue]; exact List.mem_singleton.mpr rfl)).2.2.1⟩

theorem scopedRecords_beadle (u : String) (l : List AttendanceRecord) :
    scopedRecords u roleBeadle l = l.filter (fun r => r.submittedBy == u) := by
  unfold scopedRecords
  rw [if_pos (show roleBeadle = "beadle" from rfl)]

theorem scopedRecords_other (u role : String) (l : List AttendanceRecord)
    (h : role ≠ "beadle") : scopedRecords u role l = l := by
  unfold scopedRecords
  rw [if_neg h]

theorem filter_submittedBy_idem (u : String) (l : List AttendanceRecord) :
    (l.filter (fun r => r.submittedBy == u)).filter (fun r => r.submittedBy == u)
      = l.filter (fun r => r.submittedBy == u) := by
  rw [List.filter_filter]
  simp

theorem getAttendanceStats_congr {u1 r1 u2 r2 : String}
    {recs1 recs2 : List AttendanceRecord}
    (h : scopedRecords u1 r1 recs1 = scopedRecords u2 r2 recs2) :
    getAttendanceStats u1 r1 recs1 = getAttendanceStats u2 r2 recs2 := by
  simp only [getAttendanceStats, h]

theorem getAbsenceAnalysis_congr {u1 r1 u2 r2 : String}
    {recs1 recs2 : List AttendanceRecord}
    (h : scopedRecords u1 r1 recs1 = scopedRecords u2 r2 recs2) :
    getAbsenceAnalysis u1 r1 recs1 = getAbsenceAnalysis u2 r2 recs2 := by
  simp only [getAbsenceAnalysis, h]

theorem getTrendAnalysis_congr {u1 r1 u2 r2 : String}
    {recs1 recs2 : List AttendanceRecord}
    (h : scopedRecords u1 r1 recs1 = scopedRecords u2 r2 recs2) :
    getTrendAnalysis u1 r1 recs1 = getTrendAnalysis u2 r2 recs2 := by
  simp only [getTrendAnalysis, weeklyAverages, weeklyStats, h]

theorem getStudentPerformance_congr {u1 r1 u2 r2 : String}
    {recs1 recs2 : List AttendanceRecord}
    (h : scopedRecords u1 r1 recs1 = scopedRecords u2 r2 recs2) :
    getStudentPerformance u1 r1 recs1 = getStudentPerformance u2 r2 recs2 := by
  simp only [getStudentPerformance, h]

/-- C10: every analytics helper behind the AI query endpoint scopes by
role: a beadle's result equals the result computed (under any non-beadle
role) over only the records it submitted, and any two non-beadle
requesters get identical results over the same record set. -/
theorem role_scoping (u u1 u2 r1 r2 : String) (recs : List AttendanceRecord) :
    (getAttendanceStats u roleBeadle recs
        = getAttendanceStats u roleAdmin (recs.filter (fun r => r.submittedBy == u)) ∧
      getAbsenceAnalysis u roleBeadle recs
        = getAbsenceAnalysis u roleAdmin (recs.filter (fun r => r.submittedBy == u)) ∧
      getTrendAnalysis u roleBeadle recs
        = getTrendAnalysis u roleAdmin (recs.filter (fun r => r.submittedBy == u)) ∧
      getStudentPerformance u roleBeadle recs
        = getStudentPerformance u roleAdmin (recs.filter (fun r => r.submittedBy == u))) ∧
    (r1 ≠ "beadle" → r2 ≠ "beadle" →
      getAttendanceStats u1 r1 recs = getAttendanceStats u2 r2 recs ∧
      getAbsenceAnalysis u1 r1 recs = getAbsenceAnalysis u2 r2 recs ∧
      getTrendAnalysis u1 r1 recs = getTrendAnalysis u2 r2 recs ∧
      getStudentPerformance u1 r1 recs = getStudentPerformance u2 r2 recs) := by
  have hAdmin : roleAdmin ≠ "beadle" := by decide
  have hbead : scopedRecords u roleBeadle recs
      = scopedRecords u roleAdmin (recs.filter (fun r => r.submittedBy == u)) := by
    rw [scopedRecords_beadle, scopedRecords_other _ _ _ hAdmin]
  constructor
  · exact ⟨getAttendanceStats_congr hbead, getAbsenceAnalysis_congr hbead,
      getTrendAnalysis_congr hbead, getStudentPerformance_congr hbead⟩
  · intro h1 h2
    have hnb : scopedRecords u1 r1 recs = scopedRecords u2 r2 recs := by
      rw [scopedRecords_other _ _ _ h1, scopedRecords_other _ _ _ h2]
    exact ⟨getAttendanceStats_congr hnb, getAbsenceAnalysis_congr hnb,
      getTrendAnalysis_congr hnb, getStudentPerformance_congr hnb⟩

theorem role_scoping_witness :
    getAttendanceStats uX roleAdmin [recTue] = getAttendanceStats uY roleCoordinator [recTue] :=
  (((role_scoping uX uX uY roleAdmin roleCoordinator [recTue]).2 (by decide) (by decide)).1)

theorem isPrefixList_append_self (n b : List Char) :
    isPrefixList n (n ++ b) = true := by
  induction n with
  | nil => rfl
  | cons a as ih => simp [isPrefixList, ih]

theorem isPrefixList_map (f : Char → Char) :
    ∀ n l : List Char, isPrefixList n l = true → isPrefixList (n.map f) (l.map f) = true
  | [], _, _ => rfl
  | a :: as, [], h => by simp [isPrefixList] at h
  | a :: as, b :: bs, h => by
    simp only [isPrefixList, Bool.and_eq_true, beq_iff_eq] at h
    obtain ⟨h1, h2⟩ := h
    simp only [List.map, isPrefixList, Bool.and_eq_true, beq_iff_eq]
    exact ⟨by rw [h1], isPrefixList_map f as bs h2⟩

theorem containsSub_map (f : Char → Char) :
    ∀ l n : List Char, containsSub l n = true → containsSub (l.map f) (n.map f) = true
  | [], n, h => by
    simp only [containsSub, List.isEmpty_iff] at h
    subst h
    rfl
  | c :: t, n, h => by
    simp only [containsSub, Bool.or_eq_true] at h
    simp only [List.map, containsSub, Bool.or_eq_true]
    rcases h with h | h
    · exact Or.inl (isPrefixList_map f n (c :: t) h)
    · exact Or.inr (containsSub_map f t n h)

theorem frontend_rate_of_includes (q : String) (h : strIncludes q kwRate = true) :
    frontendRoute q = Intent.rate := by
  have h3 := containsSub_map jsToLowerChar q.toList kwRate.toList h
  have h4 : kwRate.toList.map jsToLowerChar = kwRate.toList := by decide
  rw [h4] at h3
  have h2 : strIncludes (jsToLower q) kwRate = true := h3
  simp only [frontendRoute]
  simp [h2]

/-- C2 (amended): the frontend router's first rule tests the bare word
`rate` (or `percentage`), so every query containing `rate` resolves to the
rate intent there; the backend router's first rule tests `attendance rate`
(or `percentage`) instead, so a backend query containing only `rate` can
route elsewhere, but the query `What is the attendance rate trend?`
resolves to intent rate on both routers. -/
theorem query_router_amended :
    (∀ q : String, strIncludes q kwRate = true → frontendRoute q = Intent.rate) ∧
    frontendRoute qSpec = Intent.rate ∧ backendRoute qSpec = Intent.rate :=
  ⟨frontend_rate_of_includes, by decide, by decide⟩

theorem query_router_amended_witness :
    strIncludes qRateTrend kwRate = true ∧ frontendRoute qRateTrend = Intent.rate :=
  ⟨by decide, (query_router_amended).1 qRateTrend (by decide)⟩

/-- C2 (counterexample): the query `rate trend` contains `rate`, yet the
backend router sends it to the trend intent, because its first rule tests
`attendance rate`, not `rate`. -/
theorem query_router_counterexample :
    strIncludes qRateTrend kwRate = true ∧ backendRoute qRateTrend = Intent.trend ∧
    Intent.trend ≠ Intent.rate := by
  decide

/-- C3 (amended): the backend trend analyzer compares the last weekly rate
with the second-to-last, each defaulting to 0 when absent: improving
exactly when the prior value is below the recent one, declining exactly
when above, stable exactly on equality; an empty sequence therefore yields
stable, but a single period with a positive rate yields improving, not
stable. -/
theorem trend_analyzer_amended (l : List (Int × ℚ)) :
    (trendDirectionOf l = Trend.improving ↔ previousWeekRate l < recentWeekRate l) ∧
    (trendDirectionOf l = Trend.declining ↔ recentWeekRate l < previousWeekRate l) ∧
    (trendDirectionOf l = Trend.stable ↔ recentWeekRate l = previousWeekRate l) ∧
    trendDirectionOf ([] : List (Int × ℚ)) = Trend.stable := by
  have he : trendDirectionOf ([] : List (Int × ℚ)) = Trend.stable := by decide
  refine ⟨?_, ?_, ?_, he⟩
  · simp only [trendDirectionOf]
    split_ifs with h1 h2
    · exact iff_of_true rfl h1
    · exact iff_of_false (by decide) h1
    · exact iff_of_false (by decide) h1
  · simp only [trendDirectionOf]
    split_ifs with h1 h2
    · exact iff_of_false (by decide) (lt_asymm h1)
    · exact iff_of_true rfl h2
    · exact iff_of_false (by decide) h2
  · simp only [trendDirectionOf]
    split_ifs with h1 h2
    · exact iff_of_false (by decide) (ne_of_gt h1)
    · exact iff_of_false (by decide) (ne_of_lt h2)
    · exact iff_of_true rfl (le_antisymm (not_lt.mp h1) (not_lt.mp h2))

/-- C3 (counterexample): a single observed period with rate 80 leaves the
prior window empty, yet the analyzer reports improving, not stable: the
missing prior value defaults to 0 and 0 < 80. -/
theorem trend_analyzer_counterexample :
    trendDirectionOf [((0 : Int), (80 : ℚ))] = Trend.improving ∧
    Trend.improving ≠ Trend.stable := by
  decide

/-- C5: for the empty record window the frontend insight generator returns,
for every query and every ambient date renderer, the fixed well-formed
no-data message (which states that no attendance data is available), and
being a total function it raises nothing. -/
theorem empty_window_no_data (fmtDate : Int → String) (query : String) :
    getAttendanceInsights fmtDate query [] = noDataMessage ∧
    strIncludes noDataMessage phraseNoData = true := by
  exact ⟨rfl, by decide⟩

/-- C7 (amended): the weekly group key of `getTrendAnalysis` is the Sunday
on or before the record's date — `date.getDate() - date.getDay()` with
Sunday as weekday 0 — which is the first day of the Sunday-started week
containing the date, not the Monday of its ISO week; and the grouping
creates an entry only for weeks that contain at least one record, so
zero-record weeks are omitted. -/
theorem weekly_grouping_amended (u role : String) (records : List AttendanceRecord) :
    (∀ d : Int, jsGetDay (weekStartOf d) = 0 ∧ weekStartOf d ≤ d ∧ d < weekStartOf d + 7) ∧
    ∀ e ∈ weeklyStats u role records,
      0 < e.2.total ∧ ∃ r ∈ scopedRecords u role records, e.1 = weekStartOf r.date := by
  constructor
  · intro d
    simp only [jsGetDay, weekStartOf]
    omega
  · intro e he
    have he2 : e ∈ tallyBy (fun r => weekStartOf r.date)
        (fun _ => ({ present := 0, total := 0 } : PresentTotal))
        (fun c r => bumpPT c r.status) (scopedRecords u role records) [] := he
    constructor
    · refine mem_tallyBy_val (fun c => 0 < c.total) _ _ _ ?_ ?_ _ [] (by simp) e he2
      · intro r
        simp [bumpPT]
      · intro v r _
        simp [bumpPT]
    · rcases mem_tallyBy_key _ _ _ _ [] e he2 with ⟨r, hr, hk⟩ | ⟨e2, he3, _⟩
      · exact ⟨r, hr, hk⟩
      · exact absurd he3 (List.not_mem_nil e2)

theorem weekly_grouping_amended_witness :
    0 < weekEntryW.2.total ∧
    ∃ r ∈ scopedRecords uX roleAdmin [recTue], weekEntryW.1 = weekStartOf r.date :=
  (weekly_grouping_amended uX roleAdmin [recTue]).2 weekEntryW (by decide)

/-- C7 (counterexample): a record dated day 5 (Tuesday 1970-01-06) is keyed
to day 3 (Sunday 1970-01-04), but the Monday of the ISO week containing day
5 is day 4 (Monday 1970-01-05): the code's week key is not the ISO week's
first day. -/
theorem weekly_grouping_counterexample :
    (weeklyStats uX roleAdmin [recTue]).map Prod.fst = [(3 : Int)] ∧
    isoWeekMonday recTue.date = 4 ∧ ((3 : Int) ≠ 4) := by
  decide

theorem filter_orderedInsert_byDesc {α β : Type} [LinearOrder β] [DecidableEq β]
    (key : α → β) (k : β) (x : α) (l : List α) :
    (List.orderedInsert (byDesc key) x l).filter (fun a => decide (key a = k)) =
      if key x = k then x :: l.filter (fun a => decide (key a = k))
      else l.filter (fun a => decide (key a = k)) := by
  induction l with
  | nil =>
    by_cases hxk : key x = k <;> simp [List.orderedInsert, hxk]
  | cons y t ih =>
    by_cases hxy : byDesc key x y
    · simp only [List.orderedInsert]
      rw [if_pos hxy]
      by_cases hxk : key x = k <;> simp [List.filter_cons, hxk]
    · simp only [List.orderedInsert]
      rw [if_neg hxy]
      by_cases hxk : key x = k
      · have hyk : ¬ key y = k := fun hy => hxy (le_of_eq (hy.trans hxk.symm))
        simp [List.filter_cons, hyk, hxk, ih]
      · simp [List.filter_cons, hxk, ih]

theorem filter_insertionSort_byDesc {α β : Type} [LinearOrder β] [DecidableEq β]
    (key : α → β) (k : β) (l : List α) :
    (List.insertionSort (byDesc key) l).filter (fun a => decide (key a = k))
      = l.filter (fun a => decide (key a = k)) := by
  induction l with
  | nil => rfl
  | cons x t ih =>
    simp only [List.insertionSort]
    rw [filter_orderedInsert_byDesc]
    by_cases hxk : key x = k <;> simp [List.filter_cons, hxk, ih]

/-- C4 (amended): the rankers' outputs have length at most the hardcoded
limit five, are sorted by the selected metric (absence count descending;
attendance rate descending for top performers and ascending for the
needs-attention view), and ties between equal metric values keep the
aggregate's insertion order (the stable-sort contract), not display-name
ascending; mutation of the input mapping does not arise, as the sort runs
on the fresh array produced by Object.values. -/
theorem ranker_amended (u role : String) (records l : List AttendanceRecord) (k : Nat) :
    (getAbsenceAnalysis u role records).topAbsentees.length ≤ 5 ∧
    (getAbsenceAnalysis u role records).topAbsentees.Pairwise (byDesc Absentee.absenceCount) ∧
    ((rankedAbsentees l).filter (fun a => decide (a.absenceCount = k))
      = ((absenteeTally l).map Prod.snd).filter (fun a => decide (a.absenceCount = k))) ∧
    (getStudentPerformance u role records).topPerformers.length ≤ 5 ∧
    (getStudentPerformance u role records).needsAttention.length ≤ 5 ∧
    (getStudentPerformance u role records).topPerformers.Pairwise (byDesc PerfEntry.attendanceRate) ∧
    (getStudentPerformance u role records).needsAttention.Pairwise (byAsc PerfEntry.attendanceRate) := by
  have ha : (getAbsenceAnalysis u role records).topAbsentees
      = (rankedAbsentees ((scopedRecords u role records).filter
          (fun r => r.status == AttStatus.absent))).take 5 := rfl
  have hp : (getStudentPerformance u role records).topPerformers
      = (rankedPerformance (scopedRecords u role records)).take 5 := rfl
  have hn : (getStudentPerformance u role records).needsAttention
      = ((rankedPerformance (scopedRecords u role records)).drop
          ((rankedPerformance (scopedRecords u role records)).length - 5)).reverse := rfl
  have hsortA : List.Sorted (byDesc Absentee.absenceCount)
      (rankedAbsentees ((scopedRecords u role records).filter
        (fun r => r.status == AttStatus.absent))) :=
    List.sorted_insertionSort _ _
  have hsortP : List.Sorted (byDesc PerfEntry.attendanceRate)
      (rankedPerformance (scopedRecords u role records)) :=
    List.sorted_insertionSort _ _
  refine ⟨?_, ?_, filter_insertionSort_byDesc Absentee.absenceCount k _, ?_, ?_, ?_, ?_⟩
  · rw [ha]
    exact List.length_take_le _ _
  · rw [ha]
    exact List.Pairwise.sublist (List.take_sublist _ _) hsortA
  · rw [hp]
    exact List.length_take_le _ _
  · rw [hn]
    simp only [List.length_reverse, List.length_drop]
    omega
  · rw [hp]
    exact List.Pairwise.sublist (List.take_sublist _ _) hsortP
  · rw [hn]
    rw [List.pairwise_reverse]
    have hdrop : ((rankedPerformance (scopedRecords u role records)).drop
        ((rankedPerformance (scopedRecords u role records)).length - 5)).Pairwise
        (byDesc PerfEntry.attendanceRate) :=
      List.Pairwise.sublist (List.drop_sublist _ _) hsortP
    exact hdrop.imp (fun h => h)

/-- C4 (counterexample): two students tied at one absence each keep the
window's insertion order — Zed, seen first, stays ahead of Abe — so equal
metric values are not tie-broken by displayName ascending. -/
theorem ranker_tiebreak_counterexample :
    (getAbsenceAnalysis uX roleAdmin [recZed, recAbe]).topAbsentees.map
        Absentee.absenceCount = [1, 1] ∧
    (getAbsenceAnalysis uX roleAdmin [recZed, recAbe]).topAbsentees.map
        Absentee.studentName = [zedName, abeName] ∧
    lexLe zedName.toList abeName.toList = false := by
  decide

theorem containsSub_of_isPrefixList (l n : List Char) (h : isPrefixList n l = true) :
    containsSub l n = true := by
  cases l with
  | nil =>
    cases n with
    | nil => rfl
    | cons a as => simp [isPrefixList] at h
  | cons c t => simp [containsSub, h]

theorem containsSub_append_of_right (a b n : List Char) (h : containsSub b n = true) :
    containsSub (a ++ b) n = true := by
  induction a with
  | nil => exact h
  | cons c t ih => simp [containsSub, ih]

theorem containsSub_append_self_left (n b : List Char) : containsSub (n ++ b) n = true :=
  containsSub_of_isPrefixList _ _ (isPrefixList_append_self n b)

theorem isPrefixList_self (l : List Char) : isPrefixList l l = true := by
  have h := isPrefixList_append_self l []
  rwa [List.append_nil] at h

theorem containsSub_self (l : List Char) : containsSub l l = true :=
  containsSub_of_isPrefixList l l (isPrefixList_self l)

theorem strToList_append (a b : String) : (a ++ b).toList = a.toList ++ b.toList := by
  cases a
  cases b
  rfl

theorem strLength_append (a b : String) : (a ++ b).length = a.length + b.length := by
  cases a with
  | mk l1 =>
    cases b with
    | mk l2 =>
      show (l1 ++ l2).length = l1.length + l2.length
      exact List.length_append l1 l2

theorem strAppend_assoc (a b c : String) : (a ++ b) ++ c = a ++ (b ++ c) := by
  cases a with
  | mk l1 =>
    cases b with
    | mk l2 =>
      cases c with
      | mk l3 =>
        show String.mk ((l1 ++ l2) ++ l3) = String.mk (l1 ++ (l2 ++ l3))
        rw [List.append_assoc]

/-- C6: the attendance-rate formatter picks its qualitative label by the
thresholds rate ≥ 90 (excellent), 80 ≤ rate < 90 (good), rate < 80 (needs
attention); the percentage rendering is toFixed(1), whose value is within
one twentieth of the true rate; and the rendered response interpolates
exactly that one-decimal rendering and that label. -/
theorem formatter_thresholds (r : ℚ) (stats : AttendanceStats) :
    (90 ≤ r → rateQualityLabel r = "✅ Excellent attendance rate!") ∧
    (80 ≤ r → r < 90 → rateQualityLabel r = "👍 Good attendance rate") ∧
    (r < 80 → rateQualityLabel r = "⚠️ Attendance needs attention") ∧
    |((roundTenth r : ℚ)) / 10 - r| ≤ 1 / 20 ∧
    containsSub (generateAttendanceRateResponse stats).toList
      (showFixed1 stats.attendanceRate).toList = true ∧
    containsSub (generateAttendanceRateResponse stats).toList
      (rateQualityLabel stats.attendanceRate).toList = true := by
  refine ⟨?_, ?_, ?_, ?_, ?_, ?_⟩
  · intro h
    simp only [rateQualityLabel]
    rw [if_pos h]
  · intro h1 h2
    simp only [rateQualityLabel]
    rw [if_neg (not_le.mpr h2), if_pos h1]
  · intro h
    simp only [rateQualityLabel]
    rw [if_neg (not_le.mpr (by linarith)), if_neg (not_le.mpr h)]
  · simp only [roundTenth]
    have h1 : ((⌊r * 10 + 1 / 2⌋ : ℚ)) ≤ r * 10 + 1 / 2 := Int.floor_le _
    have h2 : r * 10 + 1 / 2 < (⌊r * 10 + 1 / 2⌋ : ℚ) + 1 := Int.lt_floor_add_one _
    rw [abs_le]
    constructor <;> linarith
  · simp only [generateAttendanceRateResponse, strToList_append, List.append_assoc]
    apply containsSub_append_of_right
    exact containsSub_append_self_left _ _
  · simp only [generateAttendanceRateResponse, strToList_append, List.append_assoc]
    repeat apply containsSub_append_of_right
    exact containsSub_self _

theorem formatter_thresholds_witness :
    rateQualityLabel 95 = "✅ Excellent attendance rate!" ∧
    rateQualityLabel 85 = "👍 Good attendance rate" ∧
    rateQualityLabel 60 = "⚠️ Attendance needs attention" :=
  ⟨(formatter_thresholds 95 statsW).1 (by norm_num),
   (formatter_thresholds 85 statsW).2.1 (by norm_num) (by norm_num),
   (formatter_thresholds 60 statsW).2.2.1 (by norm_num)⟩

/-- C8 (amended): the backend trend formatter is a pure function of the
three payload fields it renders — payloads differing only in their
`weeklyAverages` render identically — and the frontend insight generator is
deterministic once the ambient locale's date renderer is fixed; but its
trend branch interpolates that renderer over the record dates, so its
output does depend on the runtime locale, not only on the payload. -/
theorem formatter_deterministic_amended (d1 d2 : TrendData) (fmt1 fmt2 : Int → String) :
    (d1.trendDirection = d2.trendDirection → d1.recentWeek = d2.recentWeek →
      d1.previousWeek = d2.previousWeek →
      generateTrendResponse d1 = generateTrendResponse d2) ∧
    ((∀ x, fmt1 x = fmt2 x) →
      ∀ (q : String) (recs : List AttendanceRecord),
        getAttendanceInsights fmt1 q recs = getAttendanceInsights fmt2 q recs) := by
  constructor
  · intro h1 h2 h3
    simp only [generateTrendResponse, h1, h2, h3]
  · intro h q recs
    have hf : fmt1 = fmt2 := funext h
    rw [hf]

theorem formatter_deterministic_amended_witness :
    generateTrendResponse tdW = generateTrendResponse tdW2 :=
  (formatter_deterministic_amended tdW tdW2 fmtUS fmtUS).1 rfl rfl rfl

theorem insights_trend_form (fmt : Int → String) :
    getAttendanceInsights fmt kwTrend [recTue] =
      trendPreW ++ ("  " ++ fmt 5 ++ ": " ++
        showFixed1 (((1 : Nat) : ℚ) / ((1 : Nat) : ℚ) * 100) ++ "%") ++ trendPostW := by
  have h0 : getAttendanceInsights fmt kwTrend [recTue] =
      "📈 **Attendance Trend Analysis**:\n\n• **Overall Rate**: " ++ showFixed1 (ratePct 1 1) ++
        "%\n• **Recent Trend**: " ++ trendName Trend.stable ++ "\n• **Last 7 Days**:\n" ++
        ("  " ++ fmt 5 ++ ": " ++ showFixed1 (((1 : Nat) : ℚ) / ((1 : Nat) : ℚ) * 100) ++ "%") ++
        "\n\n" ++ trendClosing Trend.stable := rfl
  rw [h0]
  simp only [trendPreW, trendPostW, strAppend_assoc]

theorem string_ne_of_length_ne {s t : String} (h : s.length ≠ t.length) : s ≠ t :=
  fun he => h (by rw [he])

/-- C8 (counterexample): on the same record window and query, two runtimes
whose locales render dates as `1/6/1970` and `06/01/1970` produce different
frontend trend replies: the formatter is not free of locale-dependent
non-determinism. -/
theorem formatter_locale_counterexample :
    getAttendanceInsights fmtUS kwTrend [recTue] ≠ getAttendanceInsights fmtGB kwTrend [recTue] := by
  rw [insights_trend_form fmtUS, insights_trend_form fmtGB]
  apply string_ne_of_length_ne
  simp only [strLength_append]
  have h1 : (fmtUS 5).length = 8 := rfl
  have h2 : (fmtGB 5).length = 10 := rfl
  omega

/-- C9: `generateAttendanceInsights` never propagates a failure: whichever
of its four awaited collaborator calls fails, the result is exactly the
fixed fallback insight, whose summary is the fixed apology and whose
recommendation, pattern and alert lists are empty; and when every call
succeeds the result is the assembled insight. -/
theorem insights_fallback_total {E P : Type}
    (getTodayAttendanceSummary : Except E AttendanceSummary)
    (generateAttendanceInsight : AttendanceSummary → Except E String)
    (findSimilarAttendancePatterns : Except E (List P))
    (generateRecommendations : AttendanceSummary → Except E String) :
    (∀ e, getTodayAttendanceSummary = Except.error e →
      generateAttendanceInsights getTodayAttendanceSummary generateAttendanceInsight
        findSimilarAttendancePatterns generateRecommendations = fallbackInsight P) ∧
    (∀ a e, getTodayAttendanceSummary = Except.ok a →
      generateAttendanceInsight a = Except.error e →
      generateAttendanceInsights getTodayAttendanceSummary generateAttendanceInsight
        findSimilarAttendancePatterns generateRecommendations = fallbackInsight P) ∧
    (∀ a s e, getTodayAttendanceSummary = Except.ok a →
      generateAttendanceInsight a = Except.ok s →
      findSimilarAttendancePatterns = Except.error e →
      generateAttendanceInsights getTodayAttendanceSummary generateAttendanceInsight
        findSimilarAttendancePatterns generateRecommendations = fallbackInsight P) ∧
    (∀ a s p e, getTodayAttendanceSummary = Except.ok a →
      generateAttendanceInsight a = Except.ok s →
      findSimilarAttendancePatterns = Except.ok p →
      generateRecommendations a = Except.error e →
      generateAttendanceInsights getTodayAttendanceSummary generateAttendanceInsight
        findSimilarAttendancePatterns generateRecommendations = fallbackInsight P) ∧
    (∀ a s p rr, getTodayAttendanceSummary = Except.ok a →
      generateAttendanceInsight a = Except.ok s →
      findSimilarAttendancePatterns = Except.ok p →
      generateRecommendations a = Except.ok rr →
      generateAttendanceInsights getTodayAttendanceSummary generateAttendanceInsight
        findSimilarAttendancePatterns generateRecommendations =
        { summary := s, recommendations := [rr], patterns := p,
          alerts := generateAlerts a }) ∧
    (fallbackInsight P).summary
        = "Unable to generate insights at this time. Please try again later." ∧
    (fallbackInsight P).recommendations = [] ∧
    (fallbackInsight P).patterns = [] ∧
    (fallbackInsight P).alerts = [] := by
  refine ⟨?_, ?_, ?_, ?_, ?_, rfl, rfl, rfl, rfl⟩
  · intro e h
    simp [generateAttendanceInsights, h]
  · intro a e h1 h2
    simp [generateAttendanceInsights, h1, h2]
  · intro a s e h1 h2 h3
    simp [generateAttendanceInsights, h1, h2, h3]
  · intro a s p e h1 h2 h3 h4
    simp [generateAttendanceInsights, h1, h2, h3, h4]
  · intro a s p rr h1 h2 h3 h4
    simp [generateAttendanceInsights, h1, h2, h3, h4]

theorem insights_fallback_total_witness :
    generateAttendanceInsights gSumErr gInsightOk gPatternsOk gRecsOk = fallbackInsight Unit :=
  (insights_fallback_total gSumErr gInsightOk gPatternsOk gRecsOk).1 () rfl

end Pod
